import Mathlib

/-!
Shallow embedding of the invigilator-timer calculation core:
the data model (types), the timer engine (calculations and state
transitions) and the formatting utilities, translated from the
TypeScript source.  All JavaScript numbers that ever hold integer
values are modelled as `Int`; optional fields are `Option`;
JavaScript truthiness on an optional number (`!x`) is made explicit.
-/

namespace InvigilatorTimer

/-- Timer event types representing key activation points and state changes. -/
inductive TimerEventType where
  | exam_start
  | reading_start
  | exam_active
  | dp_applied
  | pause
  | resume
  | finish
deriving DecidableEq, Repr

/-- Individual timer event record; timestamps are epoch milliseconds. -/
structure TimerEvent where
  type : TimerEventType
  timestamp : Int
  valueMinutes : Option Int
deriving DecidableEq, Repr

/-- Desk: a physical exam desk with optional student assignment. -/
structure Desk where
  id : String
  deskNumber : Int
  studentName : Option String
  dpTimeTakenMinutes : Int
  adjustedFinishEpochMs : Int
  events : List TimerEvent
deriving DecidableEq, Repr

/-- Session: a single exam session with all desks and timing configuration. -/
structure Session where
  id : String
  name : String
  examDurationMinutes : Int
  readingTimeMinutes : Int
  startTimeEpochMs : Int
  desks : List Desk
deriving DecidableEq, Repr

/-- The four phases of exam execution (string enum in the source). -/
inductive TimerPhase where
  | preExam
  | readingTime
  | examActive
  | dpAdjustments
deriving DecidableEq, Repr

/-- Runtime timer state. -/
structure TimerState where
  phase : TimerPhase
  isPaused : Bool
  monotonicStartMs : Int
  pausedAtMonotonicMs : Option Int
  pausedDurationMs : Int
deriving DecidableEq, Repr

/-- Result shape of the transition functions (session plus timer state). -/
structure EngineResult where
  session : Session
  timerState : TimerState
deriving DecidableEq, Repr

/-- JavaScript truthiness of an optional number: `undefined`, and the
number `0`, are falsy; every other integer is truthy. -/
def jsTruthy : Option Int → Bool
  | none => false
  | some x => decide (x ≠ 0)

/-- calculateGeneralRemainingMs from the engine: remaining time in
milliseconds for the general exam. -/
def calculateGeneralRemainingMs (session : Session) (timerState : TimerState)
    (currentMonotonicMs : Int) : Int :=
  if timerState.phase = TimerPhase.preExam then
    session.examDurationMinutes * 60 * 1000
  else
    let elapsedMonotonicMs :=
      if timerState.isPaused then
        (timerState.pausedAtMonotonicMs.getD currentMonotonicMs) - timerState.monotonicStartMs
      else
        currentMonotonicMs - timerState.monotonicStartMs
    let adjustedElapsedMs := elapsedMonotonicMs - timerState.pausedDurationMs
    let baseExamMs := session.examDurationMinutes * 60 * 1000
    let remainingMs := baseExamMs - adjustedElapsedMs
    max 0 remainingMs

/-- calculateReadingRemainingMs from the engine. -/
def calculateReadingRemainingMs (session : Session) (timerState : TimerState)
    (currentMonotonicMs : Int) : Int :=
  if timerState.phase ≠ TimerPhase.readingTime then
    0
  else
    let elapsedMonotonicMs :=
      if timerState.isPaused then
        (timerState.pausedAtMonotonicMs.getD currentMonotonicMs) - timerState.monotonicStartMs
      else
        currentMonotonicMs - timerState.monotonicStartMs
    let adjustedElapsedMs := elapsedMonotonicMs - timerState.pausedDurationMs
    let readingTimeMs := session.readingTimeMinutes * 60 * 1000
    let remainingMs := readingTimeMs - adjustedElapsedMs
    max 0 remainingMs

/-- calculateDeskRemainingMs from the engine: adjusted remaining time for
a specific desk including D.P. time. -/
def calculateDeskRemainingMs (session : Session) (desk : Desk)
    (timerState : TimerState) (currentMonotonicMs : Int) : Int :=
  if timerState.phase = TimerPhase.preExam ∨ timerState.phase = TimerPhase.readingTime then
    (session.examDurationMinutes + desk.dpTimeTakenMinutes) * 60 * 1000
  else
    let elapsedMonotonicMs :=
      if timerState.isPaused then
        (timerState.pausedAtMonotonicMs.getD currentMonotonicMs) - timerState.monotonicStartMs
      else
        currentMonotonicMs - timerState.monotonicStartMs
    let adjustedElapsedMs := elapsedMonotonicMs - timerState.pausedDurationMs
    let baseExamMs := session.examDurationMinutes * 60 * 1000
    let totalDpMs := desk.dpTimeTakenMinutes * 60 * 1000
    let remainingMs := baseExamMs + totalDpMs - adjustedElapsedMs
    max 0 remainingMs

/-- calculateDeskAdjustedFinishEpochMs from the engine: wall-clock finish
time for a desk.  The timerState parameter is present in the source
signature but unused by its body. -/
def calculateDeskAdjustedFinishEpochMs (session : Session) (desk : Desk)
    (_timerState : TimerState) : Int :=
  let totalDurationMs := (session.examDurationMinutes + desk.dpTimeTakenMinutes) * 60 * 1000
  let readingTimeMs := session.readingTimeMinutes * 60 * 1000
  session.startTimeEpochMs + readingTimeMs + totalDurationMs

/-- calculateGeneralFinishEpochMs from the engine. -/
def calculateGeneralFinishEpochMs (session : Session) : Int :=
  let examDurationMs := session.examDurationMinutes * 60 * 1000
  let readingTimeMs := session.readingTimeMinutes * 60 * 1000
  session.startTimeEpochMs + readingTimeMs + examDurationMs

/-- The comparator used by sortDesks, as the boolean relation
"a sorts no later than b": ascending adjusted finish time, ties broken
by ascending desk number.  A JavaScript stable sort with the numeric
comparator `aFinish - bFinish` then `a.deskNumber - b.deskNumber`
orders exactly by this total preorder. -/
def deskLE (session : Session) (timerState : TimerState) (a b : Desk) : Bool :=
  let aFinish := calculateDeskAdjustedFinishEpochMs session a timerState
  let bFinish := calculateDeskAdjustedFinishEpochMs session b timerState
  if aFinish ≠ bFinish then decide (aFinish < bFinish)
  else decide (a.deskNumber ≤ b.deskNumber)

/-- sortDesks from the engine: desks sorted by adjusted finish time
(earliest first), then by desk number, with a stable sort. -/
def sortDesks (session : Session) (timerState : TimerState) : List Desk :=
  List.mergeSort session.desks (deskLE session timerState)

/-- applyDPTime from the engine: returns the updated desk with a new
dp_applied event recorded and dpTimeTakenMinutes incremented. -/
def applyDPTime (desk : Desk) (dpMinutesToAdd : Int) (currentEpochMs : Int) : Desk :=
  let newEvent : TimerEvent :=
    { type := TimerEventType.dp_applied
      timestamp := currentEpochMs
      valueMinutes := some dpMinutesToAdd }
  { desk with
      dpTimeTakenMinutes := desk.dpTimeTakenMinutes + dpMinutesToAdd
      events := desk.events ++ [newEvent] }

/-- activateExamStart from the engine: records the start event on every
desk and transitions to ReadingTime or ExamActive phase. -/
def activateExamStart (session : Session) (currentEpochMs : Int)
    (currentMonotonicMs : Int) : EngineResult :=
  let hasReadingTime := session.readingTimeMinutes > 0
  let startEvent : TimerEvent :=
    { type := if hasReadingTime then TimerEventType.reading_start else TimerEventType.exam_active
      timestamp := currentEpochMs
      valueMinutes := none }
  let updatedDesks := session.desks.map fun desk =>
    { desk with events := desk.events ++ [startEvent] }
  let updatedSession : Session := { session with desks := updatedDesks }
  let timerState : TimerState :=
    { phase := if hasReadingTime then TimerPhase.readingTime else TimerPhase.examActive
      isPaused := false
      monotonicStartMs := currentMonotonicMs
      pausedAtMonotonicMs := none
      pausedDurationMs := 0 }
  { session := updatedSession, timerState := timerState }

/-- transitionToExamActive from the engine: appends an exam_active event
to every desk and resets the monotonic zero-point for the exam phase. -/
def transitionToExamActive (session : Session) (timerState : TimerState)
    (currentEpochMs : Int) (currentMonotonicMs : Int) : EngineResult :=
  let examActiveEvent : TimerEvent :=
    { type := TimerEventType.exam_active
      timestamp := currentEpochMs
      valueMinutes := none }
  let updatedDesks := session.desks.map fun desk =>
    { desk with events := desk.events ++ [examActiveEvent] }
  let updatedSession : Session := { session with desks := updatedDesks }
  let updatedTimerState : TimerState :=
    { timerState with
        phase := TimerPhase.examActive
        monotonicStartMs := currentMonotonicMs
        pausedDurationMs := 0 }
  { session := updatedSession, timerState := updatedTimerState }

/-- pauseTimers from the engine: no-op when already paused, otherwise
appends a pause event to every desk and records the pause instant. -/
def pauseTimers (session : Session) (timerState : TimerState)
    (currentEpochMs : Int) (currentMonotonicMs : Int) : EngineResult :=
  if timerState.isPaused then
    { session := session, timerState := timerState }
  else
    let pauseEvent : TimerEvent :=
      { type := TimerEventType.pause
        timestamp := currentEpochMs
        valueMinutes := none }
    let updatedDesks := session.desks.map fun desk =>
      { desk with events := desk.events ++ [pauseEvent] }
    let updatedSession : Session := { session with desks := updatedDesks }
    let updatedTimerState : TimerState :=
      { timerState with
          isPaused := true
          pausedAtMonotonicMs := some currentMonotonicMs }
    { session := updatedSession, timerState := updatedTimerState }

/-- resumeTimers from the engine.  The source guard is
`!timerState.isPaused || !timerState.pausedAtMonotonicMs`, a JavaScript
truthiness test: the resume is also a no-op when the recorded pause
instant is the number 0. -/
def resumeTimers (session : Session) (timerState : TimerState)
    (currentEpochMs : Int) (currentMonotonicMs : Int) : EngineResult :=
  if !timerState.isPaused || !(jsTruthy timerState.pausedAtMonotonicMs) then
    { session := session, timerState := timerState }
  else
    let resumeEvent : TimerEvent :=
      { type := TimerEventType.resume
        timestamp := currentEpochMs
        valueMinutes := none }
    let updatedDesks := session.desks.map fun desk =>
      { desk with events := desk.events ++ [resumeEvent] }
    let updatedSession : Session := { session with desks := updatedDesks }
    let pauseDuration := currentMonotonicMs - timerState.pausedAtMonotonicMs.getD 0
    let updatedTimerState : TimerState :=
      { timerState with
          isPaused := false
          pausedAtMonotonicMs := none
          pausedDurationMs := timerState.pausedDurationMs + pauseDuration }
    { session := updatedSession, timerState := updatedTimerState }

/-- formatCountdown from the utilities: formats milliseconds to a
countdown string (H:MM:SS or MM:SS).  `Math.floor` of a real division is
floor division (`Int.fdiv`), and the JavaScript `%` operator is the
truncated remainder (`Int.tmod`); `String(n)` is `toString`. -/
def formatCountdown (ms : Int) : String :=
  let totalSeconds := Int.fdiv ms 1000
  let hours := Int.fdiv totalSeconds 3600
  let minutes := Int.fdiv (Int.tmod totalSeconds 3600) 60
  let seconds := Int.tmod totalSeconds 60
  let minutesStr := if minutes < 10 then "0" ++ toString minutes else toString minutes
  let secondsStr := if seconds < 10 then "0" ++ toString seconds else toString seconds
  if hours > 0 then
    toString hours ++ ":" ++ minutesStr ++ ":" ++ secondsStr
  else
    minutesStr ++ ":" ++ secondsStr

/-! Concrete sample data used by witnesses and counterexamples. -/

/-- A fresh desk, as produced by createDesk. -/
def sampleDesk : Desk :=
  { id := "desk-1"
    deskNumber := 1
    studentName := none
    dpTimeTakenMinutes := 0
    adjustedFinishEpochMs := 0
    events := [] }

/-- A desk that has already accumulated 10 minutes of D.P. time. -/
def sampleDesk10 : Desk :=
  { id := "desk-2"
    deskNumber := 2
    studentName := some "Alex"
    dpTimeTakenMinutes := 10
    adjustedFinishEpochMs := 0
    events := [] }

/-- A sample session with one desk. -/
def sampleSession : Session :=
  { id := "session-1"
    name := "Maths"
    examDurationMinutes := 90
    readingTimeMinutes := 10
    startTimeEpochMs := 1000000
    desks := [sampleDesk] }

/-- A running, unpaused timer state. -/
def sampleActiveState : TimerState :=
  { phase := TimerPhase.examActive
    isPaused := false
    monotonicStartMs := 0
    pausedAtMonotonicMs := none
    pausedDurationMs := 0 }

/-- A paused timer state with a nonzero pause instant. -/
def samplePausedState : TimerState :=
  { phase := TimerPhase.examActive
    isPaused := true
    monotonicStartMs := 0
    pausedAtMonotonicMs := some 500
    pausedDurationMs := 0 }

/-! Helper definitions for the sequence claim about applyDPTime. -/

/-- A finite sequence of applyDPTime calls, each call a pair of the
delta in minutes and the wall-clock timestamp, applied left to right. -/
def applyDPSeq (desk : Desk) (calls : List (Int × Int)) : Desk :=
  calls.foldl (fun d c => applyDPTime d c.1 c.2) desk

/-- The dp_applied event a single call records. -/
def dpEvent (c : Int × Int) : TimerEvent :=
  { type := TimerEventType.dp_applied, timestamp := c.2, valueMinutes := some c.1 }

/-- C1: for a finite sequence of applyDPTime calls with positive deltas,
the final dpTimeTakenMinutes is the initial value plus the sum of the
deltas, and the events list is the original list followed by exactly one
dp_applied entry per call, in call order, each carrying the individual
delta as valueMinutes. -/
theorem applyDPSeq_accumulates (desk : Desk) (calls : List (Int × Int))
    (hpos : ∀ c ∈ calls, 0 < c.1) :
    (applyDPSeq desk calls).dpTimeTakenMinutes
        = desk.dpTimeTakenMinutes + (calls.map Prod.fst).sum ∧
    (applyDPSeq desk calls).events = desk.events ++ calls.map dpEvent := by
  induction calls generalizing desk with
  | nil => simp [applyDPSeq]
  | cons c cs ih =>
    have hcs : ∀ x ∈ cs, 0 < x.1 := fun x hx => hpos x (List.mem_cons_of_mem _ hx)
    have h1 := ih (applyDPTime desk c.1 c.2) hcs
    have hstep : applyDPSeq desk (c :: cs) = applyDPSeq (applyDPTime desk c.1 c.2) cs := rfl
    rw [hstep]
    constructor
    · rw [h1.1]
      show desk.dpTimeTakenMinutes + c.1 + (cs.map Prod.fst).sum = _
      simp [List.map_cons, List.sum_cons]
      ring
    · rw [h1.2]
      show desk.events ++ [dpEvent c] ++ cs.map dpEvent = _
      simp [List.map_cons, List.append_assoc]

/-- Witness for C1 at a concrete desk and a concrete two-call sequence. -/
theorem applyDPSeq_accumulates_witness :
    (∀ c ∈ [((5 : Int), (100 : Int)), (3, 200)], 0 < c.1) ∧
    ((applyDPSeq sampleDesk [((5 : Int), (100 : Int)), (3, 200)]).dpTimeTakenMinutes
        = sampleDesk.dpTimeTakenMinutes
            + (([((5 : Int), (100 : Int)), (3, 200)]).map Prod.fst).sum ∧
     (applyDPSeq sampleDesk [((5 : Int), (100 : Int)), (3, 200)]).events
        = sampleDesk.events ++ ([((5 : Int), (100 : Int)), (3, 200)]).map dpEvent) :=
  ⟨by decide, applyDPSeq_accumulates sampleDesk [(5, 100), (3, 200)] (by decide)⟩

/-- C3 counterexample: applyDPTime does not reject a negative delta; at
delta -5 it changes the desk, decreasing dpTimeTakenMinutes from 10 to 5
and appending an event, so it is not a no-op. -/
theorem applyDPTime_negative_changes_desk :
    applyDPTime sampleDesk10 (-5) 0 ≠ sampleDesk10 ∧
    (applyDPTime sampleDesk10 (-5) 0).dpTimeTakenMinutes = 5 ∧
    (applyDPTime sampleDesk10 (-5) 0).events.length = sampleDesk10.events.length + 1 := by
  refine ⟨?_, by decide, by decide⟩
  intro h
  exact absurd (congrArg Desk.dpTimeTakenMinutes h) (by decide)

/-- C3 amended: for a non-positive delta, applyDPTime performs no
validation: it still adds the delta to dpTimeTakenMinutes and appends
one dp_applied event carrying the delta, and the desk is changed. -/
theorem applyDPTime_applies_nonpositive (desk : Desk) (d e : Int) (hd : d ≤ 0) :
    (applyDPTime desk d e).dpTimeTakenMinutes = desk.dpTimeTakenMinutes + d ∧
    (applyDPTime desk d e).events
        = desk.events
            ++ [{ type := TimerEventType.dp_applied, timestamp := e, valueMinutes := some d }] ∧
    applyDPTime desk d e ≠ desk := by
  refine ⟨rfl, rfl, ?_⟩
  intro h
  have hlen := congrArg (fun x => x.events.length) h
  simp [applyDPTime] at hlen

/-- Witness for the amended C3 at a concrete desk and delta. -/
theorem applyDPTime_applies_nonpositive_witness :
    ((-3 : Int) ≤ 0) ∧
    ((applyDPTime sampleDesk10 (-3) 7).dpTimeTakenMinutes
        = sampleDesk10.dpTimeTakenMinutes + (-3) ∧
     (applyDPTime sampleDesk10 (-3) 7).events
        = sampleDesk10.events
            ++ [{ type := TimerEventType.dp_applied, timestamp := 7, valueMinutes := some (-3) }] ∧
     applyDPTime sampleDesk10 (-3) 7 ≠ sampleDesk10) :=
  ⟨by decide, applyDPTime_applies_nonpositive sampleDesk10 (-3) 7 (by decide)⟩

/-- C6: the adjusted finish time of a desk is
startTimeEpochMs + readingTimeMinutes * 60000
+ (examDurationMinutes + dpTimeTakenMinutes) * 60000, and it does not
depend on the timer state at all. -/
theorem calculateDeskAdjustedFinishEpochMs_config_only
    (s : Session) (d : Desk) (ts1 ts2 : TimerState) :
    calculateDeskAdjustedFinishEpochMs s d ts1
        = s.startTimeEpochMs + s.readingTimeMinutes * 60000
            + (s.examDurationMinutes + d.dpTimeTakenMinutes) * 60000 ∧
    calculateDeskAdjustedFinishEpochMs s d ts1
        = calculateDeskAdjustedFinishEpochMs s d ts2 := by
  constructor
  · show s.startTimeEpochMs + s.readingTimeMinutes * 60 * 1000
        + (s.examDurationMinutes + d.dpTimeTakenMinutes) * 60 * 1000 = _
    ring
  · rfl

/-- C10: transitionToExamActive sets phase to examActive, resets the
monotonic zero-point to the supplied time and pausedDurationMs to 0, and
carries isPaused and pausedAtMonotonicMs over unchanged. -/
theorem transitionToExamActive_frame (s : Session) (ts : TimerState) (e m : Int) :
    (transitionToExamActive s ts e m).timerState.phase = TimerPhase.examActive ∧
    (transitionToExamActive s ts e m).timerState.monotonicStartMs = m ∧
    (transitionToExamActive s ts e m).timerState.pausedDurationMs = 0 ∧
    (transitionToExamActive s ts e m).timerState.isPaused = ts.isPaused ∧
    (transitionToExamActive s ts e m).timerState.pausedAtMonotonicMs
        = ts.pausedAtMonotonicMs :=
  ⟨rfl, rfl, rfl, rfl, rfl⟩

/-- C8 counterexample: on the negative input -500 the formatter renders
the string 0-1:0-1, not the string it renders for input 0, so negative
input is not treated as zero. -/
theorem formatCountdown_negative_not_zero :
    formatCountdown (-500) = "0-1:0-1" ∧
    formatCountdown 0 = "00:00" ∧
    formatCountdown (-500) ≠ formatCountdown 0 := by decide

/-- C4: the general remaining time is the full baseline in pre_exam, and
in every other phase, reading time included, it is
max 0 (baselineMs - elapsed) where elapsed subtracts the accumulated
pause total from the zero-point difference, the zero-point difference
being measured to the pause instant when paused and to the current
monotonic time otherwise. -/
theorem calculateGeneralRemainingMs_spec (s : Session) (ts : TimerState) (cur p : Int) :
    (ts.phase = TimerPhase.preExam →
        calculateGeneralRemainingMs s ts cur = s.examDurationMinutes * 60000) ∧
    (ts.phase ≠ TimerPhase.preExam →
      (ts.isPaused = true → ts.pausedAtMonotonicMs = some p) →
        calculateGeneralRemainingMs s ts cur
          = max 0 (s.examDurationMinutes * 60000
              - ((if ts.isPaused then p else cur) - ts.monotonicStartMs
                  - ts.pausedDurationMs))) := by
  constructor
  · intro hphase
    rw [calculateGeneralRemainingMs, if_pos hphase]
    ring
  · intro hphase hp
    rw [calculateGeneralRemainingMs, if_neg hphase]
    cases hps : ts.isPaused with
    | false =>
      simp only [hps, Bool.false_eq_true, if_false]
      have harg : s.examDurationMinutes * 60 * 1000
            - (cur - ts.monotonicStartMs - ts.pausedDurationMs)
          = s.examDurationMinutes * 60000
            - (cur - ts.monotonicStartMs - ts.pausedDurationMs) := by ring
      rw [harg]
    | true =>
      have hsome := hp hps
      simp only [hps, if_true, hsome, Option.getD_some]
      have harg : s.examDurationMinutes * 60 * 1000
            - (p - ts.monotonicStartMs - ts.pausedDurationMs)
          = s.examDurationMinutes * 60000
            - (p - ts.monotonicStartMs - ts.pausedDurationMs) := by ring
      rw [harg]

/-- Witness for C4 at a concrete session, paused state, and time. -/
theorem calculateGeneralRemainingMs_spec_witness :
    (samplePausedState.phase = TimerPhase.preExam →
        calculateGeneralRemainingMs sampleSession samplePausedState 700
          = sampleSession.examDurationMinutes * 60000) ∧
    (samplePausedState.phase ≠ TimerPhase.preExam →
      (samplePausedState.isPaused = true →
          samplePausedState.pausedAtMonotonicMs = some 500) →
        calculateGeneralRemainingMs sampleSession samplePausedState 700
          = max 0 (sampleSession.examDurationMinutes * 60000
              - ((if samplePausedState.isPaused then (500 : Int) else 700)
                  - samplePausedState.monotonicStartMs
                  - samplePausedState.pausedDurationMs))) :=
  calculateGeneralRemainingMs_spec sampleSession samplePausedState 700 500

/-- C5: the desk remaining time is frozen at the full
(examDurationMinutes + dpTimeTakenMinutes) * 60000 in pre_exam and
reading_time; in exam_active and dp_adjustments it is
max 0 (baselineMs + cumulativeDpMs - elapsed) with the same elapsed
formula; and, for non-negative configuration, neither the desk nor the
general remaining value is ever negative. -/
theorem calculateDeskRemainingMs_spec (s : Session) (d : Desk) (ts : TimerState)
    (cur p : Int) (hExam : 0 ≤ s.examDurationMinutes)
    (hDp : 0 ≤ d.dpTimeTakenMinutes) :
    (ts.phase = TimerPhase.preExam ∨ ts.phase = TimerPhase.readingTime →
        calculateDeskRemainingMs s d ts cur
          = (s.examDurationMinutes + d.dpTimeTakenMinutes) * 60000) ∧
    (ts.phase = TimerPhase.examActive ∨ ts.phase = TimerPhase.dpAdjustments →
      (ts.isPaused = true → ts.pausedAtMonotonicMs = some p) →
        calculateDeskRemainingMs s d ts cur
          = max 0 (s.examDurationMinutes * 60000 + d.dpTimeTakenMinutes * 60000
              - ((if ts.isPaused then p else cur) - ts.monotonicStartMs
                  - ts.pausedDurationMs))) ∧
    0 ≤ calculateDeskRemainingMs s d ts cur ∧
    0 ≤ calculateGeneralRemainingMs s ts cur := by
  refine ⟨?_, ?_, ?_, ?_⟩
  · intro hphase
    rw [calculateDeskRemainingMs, if_pos hphase]
    ring
  · intro hphase hp
    have hne : ¬(ts.phase = TimerPhase.preExam ∨ ts.phase = TimerPhase.readingTime) := by
      rcases hphase with h | h <;> rw [h] <;> intro hc <;> rcases hc with hc | hc <;> cases hc
    rw [calculateDeskRemainingMs, if_neg hne]
    cases hps : ts.isPaused with
    | false =>
      simp only [hps, Bool.false_eq_true, if_false]
      have harg : s.examDurationMinutes * 60 * 1000 + d.dpTimeTakenMinutes * 60 * 1000
            - (cur - ts.monotonicStartMs - ts.pausedDurationMs)
          = s.examDurationMinutes * 60000 + d.dpTimeTakenMinutes * 60000
            - (cur - ts.monotonicStartMs - ts.pausedDurationMs) := by ring
      rw [harg]
    | true =>
      have hsome := hp hps
      simp only [hps, if_true, hsome, Option.getD_some]
      have harg : s.examDurationMinutes * 60 * 1000 + d.dpTimeTakenMinutes * 60 * 1000
            - (p - ts.monotonicStartMs - ts.pausedDurationMs)
          = s.examDurationMinutes * 60000 + d.dpTimeTakenMinutes * 60000
            - (p - ts.monotonicStartMs - ts.pausedDurationMs) := by ring
      rw [harg]
  · rw [calculateDeskRemainingMs]
    split
    · positivity
    · exact le_max_left 0 _
  · rw [calculateGeneralRemainingMs]
    split
    · positivity
    · exact le_max_left 0 _

/-- Witness for C5 at a concrete session, desk, paused state, and time. -/
theorem calculateDeskRemainingMs_spec_witness :
    ((0 : Int) ≤ sampleSession.examDurationMinutes
      ∧ (0 : Int) ≤ sampleDesk10.dpTimeTakenMinutes) ∧
    ((samplePausedState.phase = TimerPhase.preExam
        ∨ samplePausedState.phase = TimerPhase.readingTime →
        calculateDeskRemainingMs sampleSession sampleDesk10 samplePausedState 700
          = (sampleSession.examDurationMinutes + sampleDesk10.dpTimeTakenMinutes) * 60000) ∧
     (samplePausedState.phase = TimerPhase.examActive
        ∨ samplePausedState.phase = TimerPhase.dpAdjustments →
      (samplePausedState.isPaused = true →
          samplePausedState.pausedAtMonotonicMs = some 500) →
        calculateDeskRemainingMs sampleSession sampleDesk10 samplePausedState 700
          = max 0 (sampleSession.examDurationMinutes * 60000
              + sampleDesk10.dpTimeTakenMinutes * 60000
              - ((if samplePausedState.isPaused then (500 : Int) else 700)
                  - samplePausedState.monotonicStartMs
                  - samplePausedState.pausedDurationMs))) ∧
     0 ≤ calculateDeskRemainingMs sampleSession sampleDesk10 samplePausedState 700 ∧
     0 ≤ calculateGeneralRemainingMs sampleSession samplePausedState 700) :=
  ⟨⟨by decide, by decide⟩,
    calculateDeskRemainingMs_spec sampleSession sampleDesk10 samplePausedState 700 500
      (by decide) (by decide)⟩

/-- C2 amended: for an unpaused state, pausing at a nonzero monotonic
instant t1 and resuming at t2 > t1 adds exactly t2 - t1 to
pausedDurationMs, clears isPaused and pausedAtMonotonicMs, and the
general and per-desk remaining times computed at t1 just before the
pause equal those computed at t2 just after the resume. -/
theorem pause_resume_conservation (s : Session) (ts : TimerState) (e1 e2 t1 t2 : Int)
    (hnp : ts.isPaused = false) (h1 : t1 ≠ 0) (hlt : t1 < t2) :
    (resumeTimers (pauseTimers s ts e1 t1).session
        (pauseTimers s ts e1 t1).timerState e2 t2).timerState.pausedDurationMs
        = ts.pausedDurationMs + (t2 - t1) ∧
    (resumeTimers (pauseTimers s ts e1 t1).session
        (pauseTimers s ts e1 t1).timerState e2 t2).timerState.isPaused = false ∧
    (resumeTimers (pauseTimers s ts e1 t1).session
        (pauseTimers s ts e1 t1).timerState e2 t2).timerState.pausedAtMonotonicMs = none ∧
    calculateGeneralRemainingMs s ts t1
        = calculateGeneralRemainingMs
            (resumeTimers (pauseTimers s ts e1 t1).session
              (pauseTimers s ts e1 t1).timerState e2 t2).session
            (resumeTimers (pauseTimers s ts e1 t1).session
              (pauseTimers s ts e1 t1).timerState e2 t2).timerState t2 ∧
    (∀ d : Desk, calculateDeskRemainingMs s d ts t1
        = calculateDeskRemainingMs
            (resumeTimers (pauseTimers s ts e1 t1).session
              (pauseTimers s ts e1 t1).timerState e2 t2).session d
            (resumeTimers (pauseTimers s ts e1 t1).session
              (pauseTimers s ts e1 t1).timerState e2 t2).timerState t2) := by
  have hts1 : (pauseTimers s ts e1 t1).timerState
      = { ts with isPaused := true, pausedAtMonotonicMs := some t1 } := by
    simp [pauseTimers, hnp]
  have hts2 : (resumeTimers (pauseTimers s ts e1 t1).session
      (pauseTimers s ts e1 t1).timerState e2 t2).timerState
      = { ts with
            isPaused := false
            pausedAtMonotonicMs := none
            pausedDurationMs := ts.pausedDurationMs + (t2 - t1) } := by
    rw [hts1]
    simp [resumeTimers, jsTruthy, h1]
  have hsE : (resumeTimers (pauseTimers s ts e1 t1).session
      (pauseTimers s ts e1 t1).timerState e2 t2).session.examDurationMinutes
      = s.examDurationMinutes := by
    rw [hts1]
    simp [pauseTimers, resumeTimers, jsTruthy, hnp, h1]
  refine ⟨by rw [hts2], by rw [hts2], by rw [hts2], ?_, ?_⟩
  · rw [calculateGeneralRemainingMs, calculateGeneralRemainingMs, hts2, hsE]
    simp only [hnp, Bool.false_eq_true, if_false]
    split
    · rfl
    · congr 1
      ring
  · intro d
    rw [calculateDeskRemainingMs, calculateDeskRemainingMs, hts2, hsE]
    simp only [hnp, Bool.false_eq_true, if_false]
    split
    · rfl
    · congr 1
      ring

/-- Witness for the amended C2 at a concrete session and times. -/
theorem pause_resume_conservation_witness :
    (sampleActiveState.isPaused = false ∧ (400 : Int) ≠ 0 ∧ (400 : Int) < 900) ∧
    ((resumeTimers (pauseTimers sampleSession sampleActiveState 11 400).session
        (pauseTimers sampleSession sampleActiveState 11 400).timerState 22 900).timerState.pausedDurationMs
        = sampleActiveState.pausedDurationMs + (900 - 400) ∧
     (resumeTimers (pauseTimers sampleSession sampleActiveState 11 400).session
        (pauseTimers sampleSession sampleActiveState 11 400).timerState 22 900).timerState.isPaused = false ∧
     (resumeTimers (pauseTimers sampleSession sampleActiveState 11 400).session
        (pauseTimers sampleSession sampleActiveState 11 400).timerState 22 900).timerState.pausedAtMonotonicMs = none ∧
     calculateGeneralRemainingMs sampleSession sampleActiveState 400
        = calculateGeneralRemainingMs
            (resumeTimers (pauseTimers sampleSession sampleActiveState 11 400).session
              (pauseTimers sampleSession sampleActiveState 11 400).timerState 22 900).session
            (resumeTimers (pauseTimers sampleSession sampleActiveState 11 400).session
              (pauseTimers sampleSession sampleActiveState 11 400).timerState 22 900).timerState
            900 ∧
     (∀ d : Desk, calculateDeskRemainingMs sampleSession d sampleActiveState 400
        = calculateDeskRemainingMs
            (resumeTimers (pauseTimers sampleSession sampleActiveState 11 400).session
              (pauseTimers sampleSession sampleActiveState 11 400).timerState 22 900).session d
            (resumeTimers (pauseTimers sampleSession sampleActiveState 11 400).session
              (pauseTimers sampleSession sampleActiveState 11 400).timerState 22 900).timerState
            900)) :=
  ⟨⟨rfl, by decide, by decide⟩,
    pause_resume_conservation sampleSession sampleActiveState 11 22 400 900
      rfl (by decide) (by decide)⟩

/-- C2 counterexample: pausing at monotonic time 0 and resuming at 7
leaves the state paused with pausedDurationMs still 0, because the
source resume guard tests JavaScript truthiness of pausedAtMonotonicMs
and the number 0 is falsy, so the resume is a no-op; the claim requires
isPaused cleared and pausedDurationMs increased by 7. -/
theorem pause_resume_zero_counterexample :
    sampleActiveState.isPaused = false ∧ (0 : Int) < 7 ∧
    (resumeTimers (pauseTimers sampleSession sampleActiveState 11 0).session
        (pauseTimers sampleSession sampleActiveState 11 0).timerState 22 7).timerState.isPaused = true ∧
    (resumeTimers (pauseTimers sampleSession sampleActiveState 11 0).session
        (pauseTimers sampleSession sampleActiveState 11 0).timerState 22 7).timerState.pausedDurationMs = 0 := by
  decide

/-- The boolean comparator used by sortDesks holds exactly when the
first desk has a strictly earlier adjusted finish time, or an equal
finish time and a desk number that is not larger. -/
theorem deskLE_eq_true_iff (s : Session) (ts : TimerState) (a b : Desk) :
    deskLE s ts a b = true ↔
      (calculateDeskAdjustedFinishEpochMs s a ts < calculateDeskAdjustedFinishEpochMs s b ts
        ∨ (calculateDeskAdjustedFinishEpochMs s a ts = calculateDeskAdjustedFinishEpochMs s b ts
            ∧ a.deskNumber ≤ b.deskNumber)) := by
  rw [deskLE]
  by_cases h : calculateDeskAdjustedFinishEpochMs s a ts
      = calculateDeskAdjustedFinishEpochMs s b ts
  · simp [h]
  · simp [h]

/-- The sortDesks comparator is transitive. -/
theorem deskLE_trans (s : Session) (ts : TimerState) (a b c : Desk)
    (hab : deskLE s ts a b) (hbc : deskLE s ts b c) : deskLE s ts a c := by
  rw [deskLE_eq_true_iff] at hab hbc ⊢
  rcases hab with hab | ⟨hab, hab2⟩ <;> rcases hbc with hbc | ⟨hbc, hbc2⟩
  · exact Or.inl (lt_trans hab hbc)
  · exact Or.inl (hbc ▸ hab)
  · exact Or.inl (hab ▸ hbc)
  · exact Or.inr ⟨hab.trans hbc, le_trans hab2 hbc2⟩

/-- The sortDesks comparator is total. -/
theorem deskLE_total (s : Session) (ts : TimerState) (a b : Desk) :
    deskLE s ts a b || deskLE s ts b a := by
  rw [Bool.or_eq_true, deskLE_eq_true_iff, deskLE_eq_true_iff]
  rcases lt_trichotomy (calculateDeskAdjustedFinishEpochMs s a ts)
      (calculateDeskAdjustedFinishEpochMs s b ts) with h | h | h
  · exact Or.inl (Or.inl h)
  · rcases le_total a.deskNumber b.deskNumber with hd | hd
    · exact Or.inl (Or.inr ⟨h, hd⟩)
    · exact Or.inr (Or.inr ⟨h.symm, hd⟩)
  · exact Or.inr (Or.inl h)

/-- C7: sortDesks returns a permutation of the desks of the session that
is pairwise ordered by ascending freshly computed adjusted finish time
with ties broken by ascending desk number: every earlier element has a
strictly smaller finish time than every later one, or an equal finish
time and a desk number that is not larger. -/
theorem sortDesks_perm_sorted (s : Session) (ts : TimerState) :
    (sortDesks s ts).Perm s.desks ∧
    (sortDesks s ts).Pairwise (fun a b =>
      calculateDeskAdjustedFinishEpochMs s a ts < calculateDeskAdjustedFinishEpochMs s b ts
        ∨ (calculateDeskAdjustedFinishEpochMs s a ts = calculateDeskAdjustedFinishEpochMs s b ts
            ∧ a.deskNumber ≤ b.deskNumber)) := by
  constructor
  · exact List.mergeSort_perm s.desks (deskLE s ts)
  · have hp := List.sorted_mergeSort (deskLE_trans s ts) (deskLE_total s ts) s.desks
    exact hp.imp fun hab => (deskLE_eq_true_iff s ts _ _).mp hab

/-- C9: every engine operation only appends to each desk audit trail,
and each effective transition appends exactly one event to every
affected desk: activateExamStart and transitionToExamActive append one
event to every desk, applyDPTime appends one event to the granted desk,
an effective pause and an effective resume append one event to every
desk, and an ineffective pause or resume leaves the session unchanged. -/
theorem events_append_only (s : Session) (ts : TimerState) (d : Desk) (delta e m : Int) :
    (∃ ev, (activateExamStart s e m).session.desks
        = s.desks.map fun dk => { dk with events := dk.events ++ [ev] }) ∧
    (∃ ev, (transitionToExamActive s ts e m).session.desks
        = s.desks.map fun dk => { dk with events := dk.events ++ [ev] }) ∧
    (∃ ev, (applyDPTime d delta e).dpTimeTakenMinutes = d.dpTimeTakenMinutes + delta
        ∧ (applyDPTime d delta e).events = d.events ++ [ev]) ∧
    (ts.isPaused = false →
      ∃ ev, (pauseTimers s ts e m).session.desks
        = s.desks.map fun dk => { dk with events := dk.events ++ [ev] }) ∧
    (ts.isPaused = true → jsTruthy ts.pausedAtMonotonicMs = true →
      ∃ ev, (resumeTimers s ts e m).session.desks
        = s.desks.map fun dk => { dk with events := dk.events ++ [ev] }) ∧
    (ts.isPaused = true → (pauseTimers s ts e m).session = s) ∧
    ((ts.isPaused = false ∨ jsTruthy ts.pausedAtMonotonicMs = false) →
      (resumeTimers s ts e m).session = s) := by
  refine ⟨⟨_, rfl⟩, ⟨_, rfl⟩, ⟨_, rfl, rfl⟩, ?_, ?_, ?_, ?_⟩
  · intro hnp
    refine ⟨{ type := TimerEventType.pause, timestamp := e, valueMinutes := none }, ?_⟩
    rw [pauseTimers]
    simp [hnp]
  · intro hp htr
    refine ⟨{ type := TimerEventType.resume, timestamp := e, valueMinutes := none }, ?_⟩
    rw [resumeTimers]
    simp [hp, htr]
  · intro hp
    rw [pauseTimers]
    simp [hp]
  · rintro (h | h)
    · rw [resumeTimers]
      simp [h]
    · rw [resumeTimers]
      simp [h]

/-- Witness for C9 at concrete inputs, instantiated once with an
unpaused state (making the pause branch effective) and once with a
paused state with a nonzero pause instant (making the resume branch
effective). -/
theorem events_append_only_witness :
    ((∃ ev, (activateExamStart sampleSession 5 6).session.desks
        = sampleSession.desks.map fun dk => { dk with events := dk.events ++ [ev] }) ∧
     (∃ ev, (transitionToExamActive sampleSession sampleActiveState 5 6).session.desks
        = sampleSession.desks.map fun dk => { dk with events := dk.events ++ [ev] }) ∧
     (∃ ev, (applyDPTime sampleDesk10 3 5).dpTimeTakenMinutes
            = sampleDesk10.dpTimeTakenMinutes + 3
        ∧ (applyDPTime sampleDesk10 3 5).events = sampleDesk10.events ++ [ev]) ∧
     (sampleActiveState.isPaused = false →
      ∃ ev, (pauseTimers sampleSession sampleActiveState 5 6).session.desks
        = sampleSession.desks.map fun dk => { dk with events := dk.events ++ [ev] }) ∧
     (sampleActiveState.isPaused = true →
        jsTruthy sampleActiveState.pausedAtMonotonicMs = true →
      ∃ ev, (resumeTimers sampleSession sampleActiveState 5 6).session.desks
        = sampleSession.desks.map fun dk => { dk with events := dk.events ++ [ev] }) ∧
     (sampleActiveState.isPaused = true →
        (pauseTimers sampleSession sampleActiveState 5 6).session = sampleSession) ∧
     ((sampleActiveState.isPaused = false
        ∨ jsTruthy sampleActiveState.pausedAtMonotonicMs = false) →
        (resumeTimers sampleSession sampleActiveState 5 6).session = sampleSession)) ∧
    ((∃ ev, (activateExamStart sampleSession 7 8).session.desks
        = sampleSession.desks.map fun dk => { dk with events := dk.events ++ [ev] }) ∧
     (∃ ev, (transitionToExamActive sampleSession samplePausedState 7 8).session.desks
        = sampleSession.desks.map fun dk => { dk with events := dk.events ++ [ev] }) ∧
     (∃ ev, (applyDPTime sampleDesk 2 7).dpTimeTakenMinutes
            = sampleDesk.dpTimeTakenMinutes + 2
        ∧ (applyDPTime sampleDesk 2 7).events = sampleDesk.events ++ [ev]) ∧
     (samplePausedState.isPaused = false →
      ∃ ev, (pauseTimers sampleSession samplePausedState 7 8).session.desks
        = sampleSession.desks.map fun dk => { dk with events := dk.events ++ [ev] }) ∧
     (samplePausedState.isPaused = true →
        jsTruthy samplePausedState.pausedAtMonotonicMs = true →
      ∃ ev, (resumeTimers sampleSession samplePausedState 7 8).session.desks
        = sampleSession.desks.map fun dk => { dk with events := dk.events ++ [ev] }) ∧
     (samplePausedState.isPaused = true →
        (pauseTimers sampleSession samplePausedState 7 8).session = sampleSession) ∧
     ((samplePausedState.isPaused = false
        ∨ jsTruthy samplePausedState.pausedAtMonotonicMs = false) →
        (resumeTimers sampleSession samplePausedState 7 8).session = sampleSession)) :=
  ⟨events_append_only sampleSession sampleActiveState sampleDesk10 3 5 6,
   events_append_only sampleSession samplePausedState sampleDesk 2 7 8⟩

/-- Zero-padding of a component to two digits, as the source does with
a string template: values below 10 get a leading 0 character. -/
def pad2 (n : Int) : String :=
  if n < 10 then "0" ++ toString n else toString n

/-- C8 amended: every non-negative duration below 3600000 ms renders as
MM:SS, the minutes component floor(ms / 60000) lying in 0..59 and both
components zero-padded to two digits, and every duration of 3600000 ms
or more renders as H:MM:SS with a positive unpadded hour component;
negative input is not clamped to zero. -/
theorem formatCountdown_nonneg (ms : Int) (h : 0 ≤ ms) :
    (ms < 3600000 →
      0 ≤ ms / 60000 ∧ ms / 60000 < 60 ∧
      formatCountdown ms = pad2 (ms / 60000) ++ ":" ++ pad2 ((ms / 1000) % 60)) ∧
    (3600000 ≤ ms →
      0 < ms / 3600000 ∧
      formatCountdown ms
        = toString (ms / 3600000) ++ ":" ++ pad2 ((ms / 60000) % 60)
            ++ ":" ++ pad2 ((ms / 1000) % 60)) := by
  have hf1000 : Int.fdiv ms 1000 = ms / 1000 := Int.fdiv_eq_ediv _ (by norm_num)
  have hts0 : 0 ≤ ms / 1000 := Int.ediv_nonneg h (by norm_num)
  have htm3600 : Int.tmod (ms / 1000) 3600 = (ms / 1000) % 3600 :=
    Int.tmod_eq_emod hts0 (by norm_num)
  have htm60 : Int.tmod (ms / 1000) 60 = (ms / 1000) % 60 :=
    Int.tmod_eq_emod hts0 (by norm_num)
  have hfm : Int.fdiv ((ms / 1000) % 3600) 60 = ((ms / 1000) % 3600) / 60 :=
    Int.fdiv_eq_ediv _ (by norm_num)
  have hfh : Int.fdiv (ms / 1000) 3600 = (ms / 1000) / 3600 :=
    Int.fdiv_eq_ediv _ (by norm_num)
  have hsec : Int.tmod (Int.fdiv ms 1000) 60 = (ms / 1000) % 60 := by
    rw [hf1000, htm60]
  constructor
  · intro hlt
    refine ⟨by omega, by omega, ?_⟩
    have hh : Int.fdiv (Int.fdiv ms 1000) 3600 = 0 := by
      rw [hf1000, hfh]; omega
    have hmin : Int.fdiv (Int.tmod (Int.fdiv ms 1000) 3600) 60 = ms / 60000 := by
      rw [hf1000, htm3600, hfm]; omega
    simp only [formatCountdown, hh, hmin, hsec]
    rw [if_neg (by omega : ¬((0 : Int) > 0))]
    simp [pad2]
  · intro hge
    have hhpos : 0 < ms / 3600000 := by omega
    refine ⟨hhpos, ?_⟩
    have hh : Int.fdiv (Int.fdiv ms 1000) 3600 = ms / 3600000 := by
      rw [hf1000, hfh]; omega
    have hmin : Int.fdiv (Int.tmod (Int.fdiv ms 1000) 3600) 60 = (ms / 60000) % 60 := by
      rw [hf1000, htm3600, hfm]; omega
    simp only [formatCountdown, hh, hmin, hsec]
    rw [if_pos (by omega : ms / 3600000 > 0)]
    simp [pad2]

/-- Witness for the amended C8 at the concrete durations 65000 ms
(1 minute 5 seconds) and 3725000 ms (1 hour 2 minutes 5 seconds). -/
theorem formatCountdown_nonneg_witness :
    ((0 : Int) ≤ 65000 ∧
     ((65000 : Int) < 3600000 →
        0 ≤ (65000 : Int) / 60000 ∧ (65000 : Int) / 60000 < 60 ∧
        formatCountdown 65000
          = pad2 ((65000 : Int) / 60000) ++ ":" ++ pad2 (((65000 : Int) / 1000) % 60)) ∧
     ((3600000 : Int) ≤ 65000 →
        0 < (65000 : Int) / 3600000 ∧
        formatCountdown 65000
          = toString ((65000 : Int) / 3600000) ++ ":" ++ pad2 (((65000 : Int) / 60000) % 60)
              ++ ":" ++ pad2 (((65000 : Int) / 1000) % 60))) ∧
    ((0 : Int) ≤ 3725000 ∧
     ((3725000 : Int) < 3600000 →
        0 ≤ (3725000 : Int) / 60000 ∧ (3725000 : Int) / 60000 < 60 ∧
        formatCountdown 3725000
          = pad2 ((3725000 : Int) / 60000) ++ ":" ++ pad2 (((3725000 : Int) / 1000) % 60)) ∧
     ((3600000 : Int) ≤ 3725000 →
        0 < (3725000 : Int) / 3600000 ∧
        formatCountdown 3725000
          = toString ((3725000 : Int) / 3600000) ++ ":"
              ++ pad2 (((3725000 : Int) / 60000) % 60)
              ++ ":" ++ pad2 (((3725000 : Int) / 1000) % 60))) :=
  ⟨⟨by decide, formatCountdown_nonneg 65000 (by decide)⟩,
   ⟨by decide, formatCountdown_nonneg 3725000 (by decide)⟩⟩

end InvigilatorTimer
